import Mathlib

/-!
Verification of `bin/scram-j-cli.py` (SCRAM-J CLI wrapper).

The script is shallowly embedded below.  Python values flowing through the
response-handling code are modelled by the inductive `Json`; Python's
`dict.get`, `seq[0]` subscripting and the truthiness-based `or` operator are
modelled by `pyGet`, `pySub0` and `pyOr`.  Fallible steps return
`Except PyErr _`; an `Except.error` that the script does not catch corresponds
to an uncaught Python exception (traceback on stderr, exit status 1, nothing
written to standard output).  Python `str.strip()` is modelled by
`pyStrip` (leading/trailing ASCII whitespace), `sp[:n]` by `pySlice`
(first `n` code points), and `json.dumps` by `pyDumps` (default separators
`", "` and `": "`; `ensure_ascii` handling in `escapeChar`).  The single
outbound HTTP attempt is external, so its outcome is a parameter of type
`FetchOutcome`; the observable behaviour of one invocation is a
`ProgOutcome` (stdout line, exit status, whether the network was used, the
request body, and the structured event that was serialized, when any).
-/

namespace ScramJ

/-- JSON values, as produced by Python's `json.loads`. -/
inductive Json where
  | null
  | bool (b : Bool)
  | num (n : Int)
  | str (s : String)
  | arr (elems : List Json)
  | obj (fields : List (String × Json))

/-- Exception classes that the uncaught extraction code can raise.
Subscripting a non-list is collapsed to `typeError`/`keyError` per receiver;
every such error is uncaught by the script, so only the error/ok distinction
is observable. -/
inductive PyErr where
  | attributeError
  | indexError
  | keyError
  | typeError
deriving DecidableEq

/-- Python `receiver.get(key, default)`: succeeds only on a dict. -/
def pyGet : Json → String → Json → Except PyErr Json
  | .obj kvs, k, dflt => .ok ((kvs.lookup k).getD dflt)
  | _, _, _ => .error .attributeError

/-- Python `receiver[0]`: head of a list, first character of a string,
`KeyError` on a (string-keyed) dict, `TypeError` otherwise. -/
def pySub0 : Json → Except PyErr Json
  | .arr [] => .error .indexError
  | .arr (x :: _) => .ok x
  | .str s =>
      match s.data with
      | [] => .error .indexError
      | c :: _ => .ok (.str (String.singleton c))
  | .obj _ => .error .keyError
  | _ => .error .typeError

/-- Python truthiness of a JSON value. -/
def pyTruthy : Json → Bool
  | .null => false
  | .bool b => b
  | .num n => if n = 0 then false else true
  | .str s => if s = "" then false else true
  | .arr [] => false
  | .arr (_ :: _) => true
  | .obj [] => false
  | .obj (_ :: _) => true

/-- Python `a or b` (short-circuit, value-returning). -/
def pyOr (a b : Json) : Json :=
  if pyTruthy a then a else b

/-- `args.session_id` as a Python value: `None` when absent. -/
def jSid : Option String → Json
  | some s => .str s
  | none => .null

/-- `MODEL_MAP.get(args.model, args.model)` — the dict literal at lines 17-23
of the source, looked up with identity fallback (line 43). -/
def resolveModel (a : String) : String :=
  if a = "default" then "dual-9b"
  else if a = "dual" then "dual-9b"
  else if a = "scram-j" then "scram-j"
  else if a = "direct" then "responder-direct"
  else if a = "nemotron" then "nemotron-direct"
  else a

/-- The per-model system-prompt character budget (source lines 15-16, 50). -/
def maxSpFor (model : String) : Nat :=
  if model = "dual-9b" ∨ model = "nemotron-direct" then 4000 else 800

/-- Python `s[:n]`: the first `n` code points of `s`. -/
def pySlice (s : String) (n : Nat) : String :=
  ⟨s.data.take n⟩

/-- Source lines 50-52: `if len(sp) > max_sp: sp = sp[:max_sp]`. -/
def truncateSystemPrompt (model : String) (sp : String) : String :=
  if sp.length > maxSpFor model then pySlice sp (maxSpFor model) else sp

/-- One chat message of the outbound request. -/
structure ChatMessage where
  role : String
  content : String

/-- Source lines 46-54: the system message is appended only when
`args.append_system_prompt` is truthy (not `None` and not empty), after
truncation; the user message is always last. -/
def buildMessages (model : String) (appendSystemPrompt : Option String)
    (prompt : String) : List ChatMessage :=
  (match appendSystemPrompt with
   | some sp => if sp = "" then [] else [⟨"system", truncateSystemPrompt model sp⟩]
   | none => []) ++ [⟨"user", prompt⟩]

/-- Python `s.strip()`: drop leading and trailing whitespace characters. -/
def pyStrip (s : String) : String :=
  ⟨((s.data.dropWhile Char.isWhitespace).reverse.dropWhile Char.isWhitespace).reverse⟩

/-- Source lines 31-37: the prompt is the positional argument when truthy,
otherwise standard input stripped of surrounding whitespace. -/
def resolvePrompt (argPrompt : Option String) (stdin : String) : String :=
  match argPrompt with
  | some s => if s = "" then pyStrip stdin else s
  | none => pyStrip stdin

/-- Lower-case hexadecimal digit. -/
def hexDigit (n : Nat) : Char :=
  if n < 10 then Char.ofNat (48 + n) else Char.ofNat (87 + n)

/-- Four lower-case hex digits, as in Python's `\uXXXX` escapes. -/
def hex4 (n : Nat) : String :=
  ⟨[hexDigit (n / 4096 % 16), hexDigit (n / 256 % 16),
    hexDigit (n / 16 % 16), hexDigit (n % 16)]⟩

/-- Escapes for code points below 0x20 (`json.dumps` ESCAPE_DCT). -/
def ctrlEscape (c : Char) : String :=
  if c = '\n' then "\\n"
  else if c = '\r' then "\\r"
  else if c = '\t' then "\\t"
  else if c.toNat = 8 then "\\b"
  else if c.toNat = 12 then "\\f"
  else "\\u" ++ hex4 c.toNat

/-- `\uXXXX` escape of a non-ASCII code point (surrogate pair above the BMP),
used only when `ensure_ascii` is true. -/
def asciiEscape (c : Char) : String :=
  if c.toNat ≤ 0xFFFF then "\\u" ++ hex4 c.toNat
  else "\\u" ++ hex4 (0xD800 + (c.toNat - 0x10000) / 0x400)
       ++ "\\u" ++ hex4 (0xDC00 + (c.toNat - 0x10000) % 0x400)

/-- Per-character escaping of Python's `json.dumps`: with `ensure_ascii=True`
(the default) every code point outside 0x20-0x7E is escaped numerically; with
`ensure_ascii=False` only the quote, the backslash and control characters
are escaped. -/
def escapeChar (ensureAscii : Bool) (c : Char) : String :=
  if c = '"' then "\\\""
  else if c = '\\' then "\\\\"
  else if c.toNat < 0x20 then ctrlEscape c
  else if ensureAscii = true ∧ 0x7E < c.toNat then asciiEscape c
  else String.singleton c

/-- Body of a serialized JSON string. -/
def escapeString (ensureAscii : Bool) (s : String) : String :=
  String.join (s.data.map (escapeChar ensureAscii))

mutual

/-- Python `json.dumps` with default separators `", "` and `": "`;
`ensureAscii` selects the escaping regime. -/
def pyDumps (ea : Bool) : Json → String
  | .null => "null"
  | .bool b => if b then "true" else "false"
  | .num n => toString n
  | .str s => "\"" ++ escapeString ea s ++ "\""
  | .arr js => "[" ++ dumpsList ea js ++ "]"
  | .obj kvs => "\x7b" ++ dumpsObj ea kvs ++ "\x7d"

/-- Comma-separated serialization of array elements. -/
def dumpsList (ea : Bool) : List Json → String
  | [] => ""
  | [j] => pyDumps ea j
  | j :: js => pyDumps ea j ++ ", " ++ dumpsList ea js

/-- Comma-separated serialization of object entries. -/
def dumpsObj (ea : Bool) : List (String × Json) → String
  | [] => ""
  | [(k, v)] => "\"" ++ escapeString ea k ++ "\": " ++ pyDumps ea v
  | (k, v) :: kvs =>
      "\"" ++ escapeString ea k ++ "\": " ++ pyDumps ea v ++ ", " ++ dumpsObj ea kvs

end

/-- Source lines 85-102: extraction of the output event from the parsed
response body.  This code runs outside the script's `try` block, so an
`Except.error` here is an uncaught exception. -/
def extract (data : Json) (sessionId : Option String) : Except PyErr Json := do
  let choices ← pyGet data "choices" (.arr [.obj []])
  let choice ← pySub0 choices
  let message ← pyGet choice "message" (.obj [])
  let content ← pyGet message "content" (.str "(no response)")
  let usage ← pyGet data "usage" (.obj [])
  let scram ← pyGet data "scram_j" (.obj [])
  let traceId ← pyGet scram "trace_id" (.str "")
  let inputTokens ← pyGet usage "prompt_tokens" (.num 0)
  let outputTokens ← pyGet usage "completion_tokens" (.num 0)
  let totalTokens ← pyGet usage "total_tokens" (.num 0)
  pure (Json.obj
    [("thread_id", pyOr traceId (pyOr (jSid sessionId) (.str ""))),
     ("item", Json.obj [("text", content), ("type", .str "message")]),
     ("usage", Json.obj [("input_tokens", inputTokens),
                         ("output_tokens", outputTokens),
                         ("total_tokens", totalTokens)])])

/-- The error events of source lines 74-81 (serialized with default
`json.dumps`, i.e. `ensure_ascii=True`). -/
def errorEvent (msg : String) : Json :=
  Json.obj [("item", Json.obj [("text", .str msg), ("type", .str "message")])]

/-- The outbound request body of source lines 57-60. -/
def payloadJson (model : String) (messages : List ChatMessage) : Json :=
  Json.obj [("model", .str model),
            ("messages", .arr (messages.map fun m =>
               Json.obj [("role", .str m.role), ("content", .str m.content)]))]

/-- Parsed command-line arguments (source lines 27-32, argparse defaults). -/
structure Args where
  model : String := "default"
  sessionId : Option String := none
  appendSystemPrompt : Option String := none
  prompt : Option String := none

/-- Outcome of the single guarded step (`urlopen` + `json.loads`,
source lines 71-82), which is external to the pure logic:
`success` when both succeeded, `urlError` when `urllib.error.URLError`
(incl. `HTTPError` and timeouts) was raised, `otherError` for any other
exception inside the `try` block (e.g. a malformed JSON body).  The carried
string is `str(e)`. -/
inductive FetchOutcome where
  | success (data : Json)
  | urlError (detail : String)
  | otherError (detail : String)

/-- Observable behaviour of one invocation: the stdout line (the script
newline-terminates and flushes it; `none` means an uncaught exception printed
nothing), the exit status, whether the HTTP request was attempted, the request
body when it was, and the structured event behind the printed line when one
was built. -/
structure ProgOutcome where
  line : Option String
  exitCode : Nat
  networkCalled : Bool
  request : Option Json
  event : Option Json

/-- The whole of `main` (source lines 26-103), with the external fetch
outcome as a parameter. -/
def run (args : Args) (stdin : String) (fetch : FetchOutcome) : ProgOutcome :=
  let prompt := resolvePrompt args.prompt stdin
  if prompt = "" then
    { line := some "\x7b\"item\":\x7b\"text\":\"(empty prompt)\",\"type\":\"message\"\x7d\x7d",
      exitCode := 0, networkCalled := false, request := none, event := none }
  else
    let model := resolveModel args.model
    let messages := buildMessages model args.appendSystemPrompt prompt
    let payload := payloadJson model messages
    match fetch with
    | .urlError detail =>
        let ev := errorEvent ("SCRAM-J connection error: " ++ detail)
        { line := some (pyDumps true ev), exitCode := 1, networkCalled := true,
          request := some payload, event := some ev }
    | .otherError detail =>
        let ev := errorEvent ("SCRAM-J error: " ++ detail)
        { line := some (pyDumps true ev), exitCode := 1, networkCalled := true,
          request := some payload, event := some ev }
    | .success data =>
        match extract data args.sessionId with
        | .error _ =>
            { line := none, exitCode := 1, networkCalled := true,
              request := some payload, event := none }
        | .ok ev =>
            { line := some (pyDumps false ev), exitCode := 0, networkCalled := true,
              request := some payload, event := some ev }

/-- Field lookup on a JSON object (used to state field absence). -/
def objField : Json → String → Option Json
  | .obj kvs, k => kvs.lookup k
  | _, _ => none

/-- A backend response of the canonical Chat Response shape, with each
optional piece (`choices[0].message.content`, the three usage counters,
`scram_j.trace_id`) independently present or absent. -/
def mkResp (content : Option String) (pt ct tt : Option Int)
    (trace : Option String) : Json :=
  Json.obj
    ([("choices", Json.arr [Json.obj
        (match content with
         | some c => [("message", Json.obj [("content", Json.str c)])]
         | none => [])])]
     ++ [("usage", Json.obj
        ((match pt with | some n => [("prompt_tokens", Json.num n)] | none => [])
         ++ (match ct with | some n => [("completion_tokens", Json.num n)] | none => [])
         ++ (match tt with | some n => [("total_tokens", Json.num n)] | none => [])))]
     ++ (match trace with
         | some t => [("scram_j", Json.obj [("trace_id", Json.str t)])]
         | none => []))

/-- The output event of source lines 94-102, as a function of its five
payload values. -/
def mkEvent (threadId text : String) (pt ct tt : Int) : Json :=
  Json.obj
    [("thread_id", Json.str threadId),
     ("item", Json.obj [("text", Json.str text), ("type", Json.str "message")]),
     ("usage", Json.obj [("input_tokens", Json.num pt),
                         ("output_tokens", Json.num ct),
                         ("total_tokens", Json.num tt)])]

theorem pyOr_str_ne (t : String) (h : t ≠ "") (j : Json) :
    pyOr (.str t) j = .str t := by
  simp [pyOr, pyTruthy, h]

theorem extract_mkResp (content : Option String) (pt ct tt : Option Int)
    (trace sid : Option String) :
    extract (mkResp content pt ct tt trace) sid =
      .ok (Json.obj
        [("thread_id", pyOr (.str (trace.getD "")) (pyOr (jSid sid) (.str ""))),
         ("item", Json.obj [("text", .str (content.getD "(no response)")),
                            ("type", .str "message")]),
         ("usage", Json.obj [("input_tokens", .num (pt.getD 0)),
                             ("output_tokens", .num (ct.getD 0)),
                             ("total_tokens", .num (tt.getD 0))])]) := by
  cases content <;> cases pt <;> cases ct <;> cases tt <;> cases trace <;> rfl

theorem threadOr_eq (trace sid : Option String) (h : trace ≠ some "") :
    pyOr (.str (trace.getD "")) (pyOr (jSid sid) (.str "")) =
      .str (trace.getD (sid.getD "")) := by
  cases trace with
  | some t =>
      have ht : t ≠ "" := fun e => h (by rw [e])
      simp [pyOr_str_ne t ht, Option.getD]
  | none =>
      cases sid with
      | none => rfl
      | some s =>
          by_cases hs : s = ""
          · subst hs; rfl
          · exact pyOr_str_ne s hs (Json.str "")

/-- C1.  The claim says every backend outcome — including a syntactically
valid body of unexpected shape such as `{"choices": []}` — still yields one
well-formed JSON event line.  The code contradicts this (and its own
stated output contract): the extraction at lines 85-92 runs outside the
`try` block, so an empty `choices` list raises an uncaught `IndexError`
and the process dies with a traceback and no stdout line at all. -/
theorem C1_uncaught_on_empty_choices :
    run { prompt := some "p" } "" (.success (Json.obj [("choices", Json.arr [])])) =
      { line := none, exitCode := 1, networkCalled := true,
        request := some (payloadJson "dual-9b" [⟨"user", "p"⟩]), event := none } := rfl

/-- C2.  For every canonical successful backend response (each of content,
the three usage counters, and the trace id independently present or absent,
a present trace id being nonempty) and every session id: the extracted event
has `item.text` equal to the content (default `"(no response)"`), the three
usage fields equal to the response counters (default 0), and `thread_id`
with priority trace id, else session id, else `""`; at the whole-program
level the invocation exits 0 and prints that event serialized with
`ensure_ascii=False`. -/
theorem C2_success_normalization (content : Option String) (pt ct tt : Option Int)
    (trace sid : Option String) (htrace : trace ≠ some "") :
    extract (mkResp content pt ct tt trace) sid =
      .ok (mkEvent (trace.getD (sid.getD "")) (content.getD "(no response)")
        (pt.getD 0) (ct.getD 0) (tt.getD 0)) ∧
    (∀ (m : String) (sp : Option String) (p : String), p ≠ "" →
      run ⟨m, sid, sp, some p⟩ "" (.success (mkResp content pt ct tt trace)) =
        { line := some (pyDumps false (mkEvent (trace.getD (sid.getD ""))
            (content.getD "(no response)") (pt.getD 0) (ct.getD 0) (tt.getD 0))),
          exitCode := 0, networkCalled := true,
          request := some (payloadJson (resolveModel m)
            (buildMessages (resolveModel m) sp p)),
          event := some (mkEvent (trace.getD (sid.getD ""))
            (content.getD "(no response)") (pt.getD 0) (ct.getD 0) (tt.getD 0)) }) := by
  have hex : extract (mkResp content pt ct tt trace) sid =
      .ok (mkEvent (trace.getD (sid.getD "")) (content.getD "(no response)")
        (pt.getD 0) (ct.getD 0) (tt.getD 0)) := by
    rw [extract_mkResp, threadOr_eq trace sid htrace]; rfl
  refine ⟨hex, fun m sp p hp => ?_⟩
  have hpr : resolvePrompt (some p) "" = p := by simp [resolvePrompt, hp]
  simp [run, hpr, hp, hex]

/-- Witness for C2, at the exact response and session id of the claim. -/
theorem C2_success_normalization_witness :
    run ⟨"default", some "s1", none, some "p"⟩ ""
        (.success (mkResp (some "hi") (some 3) (some 1) (some 4) (some "abc"))) =
      { line := some ("\x7b\"thread_id\": \"abc\", \"item\": \x7b\"text\": \"hi\", " ++
          "\"type\": \"message\"\x7d, \"usage\": \x7b\"input_tokens\": 3, " ++
          "\"output_tokens\": 1, \"total_tokens\": 4\x7d\x7d"),
        exitCode := 0, networkCalled := true,
        request := some (payloadJson "dual-9b" [⟨"user", "p"⟩]),
        event := some (mkEvent "abc" "hi" 3 1 4) } :=
  (C2_success_normalization (some "hi") (some 3) (some 1) (some 4) (some "abc")
    (some "s1") (by decide)).2 "default" none "p" (by decide)

/-- C3, counterexample: a supplied-but-empty system prompt fails Python's
truthiness test at line 47, so the built message list has one message,
not the two the claim asserts for every supplied system prompt. -/
theorem C3_counterexample :
    buildMessages "dual-9b" (some "") "hi" = [⟨"user", "hi"⟩] ∧
    (buildMessages "dual-9b" (some "") "hi").length ≠ 2 := ⟨rfl, by decide⟩

/-- C3, amended: with no system prompt, or with an empty one, the message
list is exactly the one user message; with a nonempty system prompt it is
exactly two messages, system (truncated) first and the user message last
with the full untruncated prompt. -/
theorem C3_messages (m p sp : String) :
    buildMessages m none p = [⟨"user", p⟩] ∧
    buildMessages m (some "") p = [⟨"user", p⟩] ∧
    (sp ≠ "" →
      buildMessages m (some sp) p =
        [⟨"system", truncateSystemPrompt m sp⟩, ⟨"user", p⟩]) := by
  refine ⟨rfl, rfl, fun h => ?_⟩
  simp [buildMessages, h]

/-- Witness for the amended C3 at a concrete nonempty system prompt. -/
theorem C3_messages_witness :
    buildMessages "scram-j" (some "sys") "hello" =
      [⟨"system", truncateSystemPrompt "scram-j" "sys"⟩, ⟨"user", "hello"⟩] :=
  (C3_messages "scram-j" "hello" "sys").2.2 (by decide)

/-- C4.  The budget is 4000 for `dual-9b` and `nemotron-direct` and 800
otherwise; when the system prompt exceeds its budget the content is exactly
the budget-length leading slice; the result never exceeds the budget in
length and is always a leading slice of the original. -/
theorem C4_truncation (s m : String) :
    (maxSpFor "dual-9b" = 4000 ∧ maxSpFor "nemotron-direct" = 4000) ∧
    (m ≠ "dual-9b" ∧ m ≠ "nemotron-direct" → maxSpFor m = 800) ∧
    (s.length > maxSpFor m →
      truncateSystemPrompt m s = pySlice s (maxSpFor m) ∧
      (truncateSystemPrompt m s).length = maxSpFor m) ∧
    (truncateSystemPrompt m s).length ≤ maxSpFor m ∧
    ∃ rest, s.data = (truncateSystemPrompt m s).data ++ rest := by
  have hlen : ∀ t : String, t.length = t.data.length := fun _ => rfl
  refine ⟨⟨rfl, rfl⟩, ?_, ?_, ?_, ?_⟩
  · rintro ⟨h1, h2⟩; simp [maxSpFor, h1, h2]
  · intro h
    refine ⟨by rw [truncateSystemPrompt, if_pos h], ?_⟩
    rw [truncateSystemPrompt, if_pos h]
    show (s.data.take (maxSpFor m)).length = maxSpFor m
    rw [List.length_take]
    have := hlen s
    omega
  · rw [truncateSystemPrompt]
    split
    · show (s.data.take (maxSpFor m)).length ≤ maxSpFor m
      rw [List.length_take]; omega
    · omega
  · rw [truncateSystemPrompt]
    split
    · exact ⟨s.data.drop (maxSpFor m), (List.take_append_drop _ _).symm⟩
    · exact ⟨[], by simp⟩

/-- Witness for C4 at an 801-character prompt and a short-budget model. -/
theorem C4_truncation_witness :
    truncateSystemPrompt "scram-j" ⟨List.replicate 801 'a'⟩ =
      pySlice ⟨List.replicate 801 'a'⟩ 800 ∧
    (truncateSystemPrompt "scram-j" ⟨List.replicate 801 'a'⟩).length = 800 :=
  (C4_truncation ⟨List.replicate 801 'a'⟩ "scram-j").2.2.1 (by
    show (List.replicate 801 'a').length > maxSpFor "scram-j"
    have h1 : maxSpFor "scram-j" = 800 := rfl
    have h2 : (List.replicate 801 'a').length = 801 := List.length_replicate 801 'a'
    omega)

/-- C5.  Model resolution maps the five table entries as documented and
returns every other alias unchanged (exact-match, case-sensitive). -/
theorem C5_resolution (a : String)
    (h : a ≠ "default" ∧ a ≠ "dual" ∧ a ≠ "scram-j" ∧ a ≠ "direct" ∧ a ≠ "nemotron") :
    resolveModel "default" = "dual-9b" ∧ resolveModel "dual" = "dual-9b" ∧
    resolveModel "scram-j" = "scram-j" ∧ resolveModel "direct" = "responder-direct" ∧
    resolveModel "nemotron" = "nemotron-direct" ∧ resolveModel a = a := by
  obtain ⟨h1, h2, h3, h4, h5⟩ := h
  exact ⟨rfl, rfl, rfl, rfl, rfl, by simp [resolveModel, h1, h2, h3, h4, h5]⟩

/-- Witness for C5 at the non-table alias `"Default"` (capitalized:
the lookup is case-sensitive, so it passes through unchanged). -/
theorem C5_resolution_witness : resolveModel "Default" = "Default" :=
  (C5_resolution "Default" (by decide)).2.2.2.2.2

/-- C6, counterexample: the positional prompt `" "` is empty after trimming,
but it is truthy at lines 35-37 (the positional argument is never stripped),
so the program does call the network instead of short-circuiting with the
`"(empty prompt)"` line. -/
theorem C6_counterexample :
    (run ⟨"default", none, none, some " "⟩ "" (.urlError "refused")).networkCalled = true ∧
    (run ⟨"default", none, none, some " "⟩ "" (.urlError "refused")).line ≠
      some "\x7b\"item\":\x7b\"text\":\"(empty prompt)\",\"type\":\"message\"\x7d\x7d" ∧
    pyStrip " " = "" :=
  ⟨rfl, by decide, rfl⟩

/-- C6, amended: when the positional prompt is absent or the empty string
and standard input is empty after stripping, the program writes exactly the
`"(empty prompt)"` line, exits 0, and performs no network call. -/
theorem C6_empty_prompt (m : String) (sid sp p : Option String) (stdin : String)
    (fetch : FetchOutcome) (hp : p = none ∨ p = some "")
    (hstdin : pyStrip stdin = "") :
    run ⟨m, sid, sp, p⟩ stdin fetch =
      { line := some "\x7b\"item\":\x7b\"text\":\"(empty prompt)\",\"type\":\"message\"\x7d\x7d",
        exitCode := 0, networkCalled := false, request := none, event := none } := by
  have hres : resolvePrompt p stdin = "" := by
    rcases hp with h | h <;> subst h <;> simp [resolvePrompt, hstdin]
  simp [run, hres]

/-- Witness for the amended C6 with whitespace-only standard input. -/
theorem C6_empty_prompt_witness :
    run ⟨"default", none, none, none⟩ "  \n " (.urlError "x") =
      { line := some "\x7b\"item\":\x7b\"text\":\"(empty prompt)\",\"type\":\"message\"\x7d\x7d",
        exitCode := 0, networkCalled := false, request := none, event := none } :=
  C6_empty_prompt "default" none none none "  \n " (.urlError "x") (Or.inl rfl) (by decide)

/-- C7.  On a transport failure the emitted event's `item.text` is
`"SCRAM-J connection error: "` followed by the detail, the event has no
`thread_id` and no `usage` field, and the exit status is 1; on any other
exception caught during the guarded fetch/parse step the event's
`item.text` is `"SCRAM-J error: "` followed by the detail and the exit
status is 1. -/
theorem C7_error_branches (d : String) (args : Args) (stdin : String)
    (h : resolvePrompt args.prompt stdin ≠ "") :
    run args stdin (.urlError d) =
      { line := some (pyDumps true (errorEvent ("SCRAM-J connection error: " ++ d))),
        exitCode := 1, networkCalled := true,
        request := some (payloadJson (resolveModel args.model)
          (buildMessages (resolveModel args.model) args.appendSystemPrompt
            (resolvePrompt args.prompt stdin))),
        event := some (errorEvent ("SCRAM-J connection error: " ++ d)) } ∧
    run args stdin (.otherError d) =
      { line := some (pyDumps true (errorEvent ("SCRAM-J error: " ++ d))),
        exitCode := 1, networkCalled := true,
        request := some (payloadJson (resolveModel args.model)
          (buildMessages (resolveModel args.model) args.appendSystemPrompt
            (resolvePrompt args.prompt stdin))),
        event := some (errorEvent ("SCRAM-J error: " ++ d)) } ∧
    objField (errorEvent ("SCRAM-J connection error: " ++ d)) "thread_id" = none ∧
    objField (errorEvent ("SCRAM-J connection error: " ++ d)) "usage" = none := by
  refine ⟨?_, ?_, rfl, rfl⟩ <;> simp [run, h]

/-- Witness for C7 at the spec's `"connection refused"` scenario. -/
theorem C7_error_branches_witness :
    run ⟨"default", none, none, some "p"⟩ "" (.urlError "connection refused") =
      { line := some ("\x7b\"item\": \x7b\"text\": \"SCRAM-J connection error: " ++
          "connection refused\", \"type\": \"message\"\x7d\x7d"),
        exitCode := 1, networkCalled := true,
        request := some (payloadJson "dual-9b" [⟨"user", "p"⟩]),
        event := some (errorEvent "SCRAM-J connection error: connection refused") } :=
  (C7_error_branches "connection refused" ⟨"default", none, none, some "p"⟩ ""
    (by decide)).1

/-- C8, counterexample: the error branches serialize with `json.dumps`
defaults (`ensure_ascii=True`), so a non-ASCII character in the failure
detail is emitted as a `\uXXXX` escape, not literally, contradicting the
claim for the transport/other-failure branches. -/
theorem C8_counterexample :
    (run ⟨"default", none, none, some "p"⟩ "" (.otherError "é")).line =
      some "\x7b\"item\": \x7b\"text\": \"SCRAM-J error: \\u00e9\", \"type\": \"message\"\x7d\x7d" ∧
    (run ⟨"default", none, none, some "p"⟩ "" (.otherError "é")).line ≠
      some "\x7b\"item\": \x7b\"text\": \"SCRAM-J error: é\", \"type\": \"message\"\x7d\x7d" :=
  ⟨rfl, by decide⟩

/-- C8, amended: only the success branch (line 103, `ensure_ascii=False`)
leaves non-ASCII characters unescaped — its escaper maps every code point
at or above 0x80 to itself, and a successful response whose content is
`"résumé"` is emitted with the accents literal; the error branches use the
default serializer, which numerically escapes such characters. -/
theorem C8_escaping :
    (∀ c : Char, 0x80 ≤ c.toNat → escapeChar false c = String.singleton c) ∧
    (run ⟨"default", none, none, some "p"⟩ ""
        (.success (mkResp (some "résumé") none none none none))).line =
      some ("\x7b\"thread_id\": \"\", \"item\": \x7b\"text\": \"résumé\", " ++
        "\"type\": \"message\"\x7d, \"usage\": \x7b\"input_tokens\": 0, " ++
        "\"output_tokens\": 0, \"total_tokens\": 0\x7d\x7d") ∧
    (run ⟨"default", none, none, some "p"⟩ "" (.otherError "é")).line =
      some "\x7b\"item\": \x7b\"text\": \"SCRAM-J error: \\u00e9\", \"type\": \"message\"\x7d\x7d" := by
  refine ⟨fun c h => ?_, rfl, rfl⟩
  have h1 : ¬ c = '"' := by intro e; subst e; exact absurd h (by decide)
  have h2 : ¬ c = '\\' := by intro e; subst e; exact absurd h (by decide)
  have h3 : ¬ c.toNat < 0x20 := by omega
  simp [escapeChar, h1, h2, h3]

/-- Witness for C8 (amended): the success-path escaper keeps `'é'` literal. -/
theorem C8_escaping_witness : escapeChar false 'é' = String.singleton 'é' :=
  C8_escaping.1 'é' (by decide)

/-- C9.  A supplied-but-empty positional prompt is falsy at line 36, so the
invocation behaves exactly as if the argument were absent: the prompt is
read from standard input and stripped, and the empty argument is never used. -/
theorem C9_empty_prompt_arg (m : String) (sid sp : Option String) (stdin : String)
    (fetch : FetchOutcome) :
    run ⟨m, sid, sp, some ""⟩ stdin fetch = run ⟨m, sid, sp, none⟩ stdin fetch ∧
    resolvePrompt (some "") stdin = pyStrip stdin :=
  ⟨rfl, rfl⟩

/-- C10.  A present-but-empty `scram_j.trace_id` is falsy in the `or` chain
at line 95, so extraction behaves exactly as if the trace id were absent;
likewise a present-but-empty session id; concretely, an empty trace id with
session id `"s1"` yields `thread_id = "s1"`. -/
theorem C10_empty_trace_and_session (content : Option String) (pt ct tt : Option Int)
    (sid : Option String) :
    extract (mkResp content pt ct tt (some "")) sid =
      extract (mkResp content pt ct tt none) sid ∧
    extract (mkResp content pt ct tt none) (some "") =
      extract (mkResp content pt ct tt none) none ∧
    extract (mkResp none none none none (some "")) (some "s1") =
      .ok (mkEvent "s1" "(no response)" 0 0 0) := by
  refine ⟨?_, ?_, rfl⟩ <;>
    cases content <;> cases pt <;> cases ct <;> cases tt <;> rfl

end ScramJ
